import Mathlib

/-!
Formal model of the `freedesktop-icons` crate (icon path resolution
following the freedesktop icon-theme specification).

The model is a shallow embedding of the Rust sources:
  * `src/theme/directories.rs` — directory metadata and size matching,
  * `src/theme/parse.rs`       — `index.theme` directory/inherits extraction,
  * `src/theme/paths.rs`       — base-path resolution,
  * `src/theme/mod.rs`         — per-record icon search and filename probing,
  * `src/cache.rs`             — the tri-state result cache,
  * `src/lib.rs`               — the lookup builder and the fallback chain,
  * `src/lookup.rs`            — the legacy builder (`Lookup`).

External effects are made explicit:
  * the filesystem is a list `fs : List String` of paths that exist, and
    `Path::exists` becomes membership in that list;
  * the text-level INI tokenizer (the external `ini_core` crate) is out of
    scope: an index file is represented by its stream of `ini_core::Item`
    events (`List IniItem`), which is exactly the input consumed by the
    repository code in `parse.rs`;
  * `PathBuf::join` becomes `path_join` on strings;
  * the XDG environment consumed by `paths.rs` (data dirs, data home, home
    directory) is passed as explicit arguments.
-/

/-- Models `PathBuf::join` for the simple path shapes exercised here: joining
onto the empty path yields the right-hand side, otherwise the two sides are
separated by `/`. -/
def path_join (p q : String) : String :=
  if p = "" then q else p ++ "/" ++ q

/-- Models `Path::exists` against an explicit filesystem: the path exists iff
it is listed in `fs`. -/
def path_exists (fs : List String) (p : String) : Bool :=
  fs.any (fun q => q == p)

/-- Models Rust `Option::or_else`: the right-hand side is consulted only when
the left-hand side is `none`. -/
def or_else {α : Type} (a : Option α) (b : Unit → Option α) : Option α :=
  match a with
  | some v => some v
  | none => b ()

/-- Concatenation of the images of `f`, models `Iterator::flat_map` collected
into a `Vec`. -/
def flat_map {α β : Type} (f : α → List β) : List α → List β
  | [] => []
  | x :: xs => f x ++ flat_map f xs

/-! ## `ini_core` items

`ini_core::Item`, the event stream produced by the external INI tokenizer and
consumed by `theme/parse.rs`. -/

inductive IniItem where
  | Error (line : String)
  | Section (name : String)
  | SectionEnd
  | Property (key : String) (value : Option String)
  | Comment (text : String)
  | Blank
deriving DecidableEq

/-! ## `theme/parse.rs` -/

/-- `DirectorySection` from `theme/parse.rs`. -/
inductive DirectorySection where
  | Property (key : String) (value : String)
  | EndSection
  | Section (name : String)
deriving DecidableEq

/-- `sections` from `theme/parse.rs`: keep sections, section ends and
properties that carry a value; drop everything else. -/
def sections : List IniItem → List DirectorySection
  | [] => []
  | IniItem.Property k (some v) :: rest => DirectorySection.Property k v :: sections rest
  | IniItem.Section s :: rest => DirectorySection.Section s :: sections rest
  | IniItem.SectionEnd :: rest => DirectorySection.EndSection :: sections rest
  | _ :: rest => sections rest

/-- `icon_theme_section` from `theme/parse.rs`: the key/value properties of
the `[Icon Theme]` section (skip until that section header, take until the
next section header). -/
def icon_theme_section (file : List IniItem) : List (String × String) :=
  (((file.dropWhile fun it => decide (it ≠ IniItem.Section "Icon Theme")).takeWhile fun it =>
      match it with
      | IniItem.Section v => decide (v = "Icon Theme")
      | _ => true).filterMap fun it =>
    match it with
    | IniItem.Property k (some v) => some (k, v)
    | _ => none)

/-- Digit run accumulator used by `parse_i16`. -/
def parse_digits_aux : List Char → Nat → Option Nat
  | [], acc => some acc
  | c :: cs, acc =>
    if c.isDigit then parse_digits_aux cs (acc * 10 + (c.toNat - 48)) else none

/-- A non-empty all-digit run, or `none`. -/
def parse_digits (cs : List Char) : Option Nat :=
  match cs with
  | [] => none
  | _ => parse_digits_aux cs 0

/-- Models Rust `str::parse::<i16>()`: an optional sign followed by a
non-empty digit run, rejected when out of the `i16` range. -/
def parse_i16 (s : String) : Option Int :=
  match s.data with
  | '+' :: rest => (parse_digits rest).bind fun n => if n ≤ 32767 then some (n : Int) else none
  | '-' :: rest => (parse_digits rest).bind fun n => if n ≤ 32768 then some (-(n : Int)) else none
  | cs => (parse_digits cs).bind fun n => if n ≤ 32767 then some (n : Int) else none

/-- Models Rust `str::split(',')`: split on every comma, keeping empty
fragments (so the result is never empty). -/
def split_comma_aux : List Char → List Char → List String
  | [], acc => [String.mk acc.reverse]
  | c :: cs, acc =>
    if c = ',' then String.mk acc.reverse :: split_comma_aux cs []
    else split_comma_aux cs (c :: acc)

/-- See `split_comma_aux`. -/
def split_comma (s : String) : List String :=
  split_comma_aux s.data []

/-! ## `theme/directories.rs` -/

/-- `DirectoryType` from `theme/directories.rs`. -/
inductive DirectoryType where
  | Fixed
  | Scalable
  | Threshold
deriving DecidableEq

/-- `From<&str> for DirectoryType`: unrecognized values fall back to
`Threshold` (also the `Default`). -/
def directory_type_from (value : String) : DirectoryType :=
  if value = "Fixed" then DirectoryType.Fixed
  else if value = "Scalable" then DirectoryType.Scalable
  else DirectoryType.Threshold

/-- `Directory` from `theme/directories.rs`; the numeric fields are Rust
`i16` values, represented as integers (they are produced by `parse_i16`, so
they lie in the `i16` range). -/
structure Directory where
  name : String
  size : Int
  scale : Int
  type_ : DirectoryType
  maxsize : Int
  minsize : Int
  threshold : Int
deriving DecidableEq

/-- The `u16 as i16` cast applied to the requested size and scale in
`Directory::match_size` and `Directory::directory_size_distance`. -/
def u16_as_i16 (n : Nat) : Int :=
  if n % 65536 < 32768 then ((n % 65536 : Nat) : Int)
  else ((n % 65536 : Nat) : Int) - 65536

/-- `Directory::match_size`: exact (size, scale) match by directory type. -/
def Directory.match_size (d : Directory) (size scale : Nat) : Bool :=
  let scaleI := u16_as_i16 scale
  let sizeI := u16_as_i16 size
  if d.scale ≠ scaleI then false
  else
    match d.type_ with
    | DirectoryType.Fixed => decide (d.size = sizeI)
    | DirectoryType.Scalable => decide (d.minsize ≤ sizeI ∧ sizeI ≤ d.maxsize)
    | DirectoryType.Threshold =>
        decide (d.size - d.threshold ≤ sizeI ∧ sizeI ≤ d.size + d.threshold)

/-- `Directory::directory_size_distance`, transcribed branch for branch
(including the `Scalable` arm exactly as written in the source). -/
def Directory.directory_size_distance (d : Directory) (size scale : Nat) : Int :=
  let scaled_size := d.size * d.scale
  let min_scaled_size := d.minsize * d.scale
  let max_scaled_size := d.maxsize * d.scale
  let scaleI := u16_as_i16 scale
  let sizeI := u16_as_i16 size
  let scaled_requested_size := sizeI * scaleI
  match d.type_ with
  | DirectoryType.Fixed => scaled_size - scaled_requested_size
  | DirectoryType.Scalable =>
      if scaled_requested_size < min_scaled_size then
        min_scaled_size - scaled_requested_size
      else if scaled_requested_size < max_scaled_size then
        scaled_requested_size - max_scaled_size
      else 0
  | DirectoryType.Threshold =>
      if scaled_requested_size < (d.size - d.threshold) * scaleI then
        min_scaled_size - scaled_requested_size
      else if scaled_requested_size > (d.size + d.threshold) * scaleI then
        scaled_requested_size - max_scaled_size
      else 0

/-! ## `Theme::get_all_directories` (`theme/parse.rs`) -/

/-- One step of the `std::iter::from_fn` loop in `Theme::get_all_directories`.
The state parameters mirror the local variables of the closure (current
section name and the optional collected fields). At `EndSection` with a
collected `Size` a `Directory` is emitted and the state is re-initialized; at
`EndSection` with no parseable `Size` the `?` operator makes the closure
return `None`, which terminates the whole iterator — the remaining events are
never consumed. -/
def get_all_directories_aux :
    List DirectorySection → String → Option Int → Option Int → Option Int →
    Option Int → Option Int → DirectoryType → List Directory
  | [], _, _, _, _, _, _, _ => []
  | DirectorySection.Property k v :: rest, name, size, max_size, min_size, threshold, scale, dtype =>
    if name = "" ∨ name = "Icon Theme" then
      get_all_directories_aux rest name size max_size min_size threshold scale dtype
    else if k = "Size" then
      get_all_directories_aux rest name (parse_i16 v) max_size min_size threshold scale dtype
    else if k = "Scale" then
      get_all_directories_aux rest name size max_size min_size threshold (parse_i16 v) dtype
    else if k = "Type" then
      get_all_directories_aux rest name size max_size min_size threshold scale (directory_type_from v)
    else if k = "MaxSize" then
      get_all_directories_aux rest name size (parse_i16 v) min_size threshold scale dtype
    else if k = "MinSize" then
      get_all_directories_aux rest name size max_size (parse_i16 v) threshold scale dtype
    else if k = "Threshold" then
      get_all_directories_aux rest name size max_size min_size (parse_i16 v) scale dtype
    else
      get_all_directories_aux rest name size max_size min_size threshold scale dtype
  | DirectorySection.Section new_name :: rest, _, _, _, _, _, _, _ =>
    get_all_directories_aux rest new_name none none none none none DirectoryType.Threshold
  | DirectorySection.EndSection :: rest, name, size, max_size, min_size, threshold, scale, dtype =>
    if name = "" ∨ name = "Icon Theme" then
      get_all_directories_aux rest name size max_size min_size threshold scale dtype
    else
      match size with
      | none => []
      | some s =>
        { name := name, size := s, scale := scale.getD 1, type_ := dtype,
          maxsize := max_size.getD s, minsize := min_size.getD s,
          threshold := threshold.getD 2 } ::
          get_all_directories_aux rest "" none none none none none DirectoryType.Threshold

/-- `Theme::get_all_directories`: the directory entries extracted from an
index file (given as its `ini_core` event stream). -/
def get_all_directories (file : List IniItem) : List Directory :=
  get_all_directories_aux (sections file) "" none none none none none DirectoryType.Threshold

/-- `Theme::inherits`: the `Inherits` value of the `[Icon Theme]` section,
split on commas, with fragments equal to `"hicolor"` filtered out. -/
def inherits (file : List IniItem) : List String :=
  match (icon_theme_section file).find? (fun kv => kv.1 == "Inherits") with
  | some kv => (split_comma kv.2).filter (fun parent => parent != "hicolor")
  | none => []

/-! ## `theme/mod.rs` -/

/-- `Theme` from `theme/mod.rs`: one physical theme directory. `path` is the
theme directory (`ThemePath`); `index` stands for the content of the file at
the record's index path, represented by its `ini_core` event stream (in the
source the content is re-read by `read_ini_theme` and tokenized by
`ini_core::Parser` at every use). -/
structure Theme where
  path : String
  index : List IniItem
deriving DecidableEq

/-- `try_build_svg` from `theme/mod.rs`. -/
def try_build_svg (fs : List String) (name path : String) : Option String :=
  let svg := path_join path (name ++ ".svg")
  if path_exists fs svg then some svg else none

/-- `try_build_png` from `theme/mod.rs`. -/
def try_build_png (fs : List String) (name path : String) : Option String :=
  let png := path_join path (name ++ ".png")
  if path_exists fs png then some png else none

/-- `try_build_xmp` from `theme/mod.rs`. -/
def try_build_xmp (fs : List String) (name path : String) : Option String :=
  let xmp := path_join path (name ++ ".xmp")
  if path_exists fs xmp then some xmp else none

/-- `try_build_icon_path` from `theme/mod.rs`: probe `png`, `svg`, `xmp` in
that order, or `svg` first when `force_svg` is set. -/
def try_build_icon_path (fs : List String) (name path : String) (force_svg : Bool) :
    Option String :=
  if force_svg then
    or_else (try_build_svg fs name path) fun _ =>
      or_else (try_build_png fs name path) fun _ => try_build_xmp fs name path
  else
    or_else (try_build_png fs name path) fun _ =>
      or_else (try_build_svg fs name path) fun _ => try_build_xmp fs name path

/-- `Theme::match_size` (`theme/mod.rs`): the paths of the directories that
are an exact match for the requested size and scale. -/
def Theme.match_size (t : Theme) (size scale : Nat) : List String :=
  ((get_all_directories t.index).filter fun d => d.match_size size scale).map
    fun d => path_join t.path d.name

/-- `Theme::try_get_icon_exact_size` (`theme/mod.rs`). -/
def Theme.try_get_icon_exact_size (t : Theme) (fs : List String) (name : String)
    (size scale : Nat) (force_svg : Bool) : Option String :=
  List.findSome? (fun p => try_build_icon_path fs name p force_svg) (t.match_size size scale)

/-- Stable insertion used by `sort_by_distance`: an element is placed before
the first existing element with a strictly greater key, so elements with
equal keys keep their original relative order — the behavior of Rust's
stable `sort_by` on the distance key. -/
def insert_by_distance (x : Directory × Nat) :
    List (Directory × Nat) → List (Directory × Nat)
  | [] => [x]
  | y :: ys => if x.2 ≤ y.2 then x :: y :: ys else y :: insert_by_distance x ys

/-- Stable sort on the distance key — models `Vec::sort_by` with
`a.cmp(b)` on the stored absolute distances. -/
def sort_by_distance : List (Directory × Nat) → List (Directory × Nat)
  | [] => []
  | x :: xs => insert_by_distance x (sort_by_distance xs)

/-- `Theme::closest_match_size` (`theme/mod.rs`): keep the directories whose
distance is below `i16::MAX`, pair them with the absolute distance, stably
sort by it and return the joined paths. -/
def Theme.closest_match_size (t : Theme) (size scale : Nat) : List String :=
  let dirs := (get_all_directories t.index).filterMap fun d =>
    let distance := d.directory_size_distance size scale
    if distance < 32767 then some (d, distance.natAbs) else none
  (sort_by_distance dirs).map fun x => path_join t.path x.1.name

/-- `Theme::try_get_icon_closest_size` (`theme/mod.rs`). -/
def Theme.try_get_icon_closest_size (t : Theme) (fs : List String) (name : String)
    (size scale : Nat) (force_svg : Bool) : Option String :=
  List.findSome? (fun p => try_build_icon_path fs name p force_svg)
    (t.closest_match_size size scale)

/-- `Theme::try_get_icon` (`theme/mod.rs`): the exact-size search of this
record, falling back to its closest-size search. -/
def Theme.try_get_icon (t : Theme) (fs : List String) (name : String)
    (size scale : Nat) (force_svg : Bool) : Option String :=
  or_else (t.try_get_icon_exact_size fs name size scale force_svg) fun _ =>
    t.try_get_icon_closest_size fs name size scale force_svg

/-! ## `theme/paths.rs` -/

/-- `icon_theme_base_paths` from `theme/paths.rs`. `base_dirs` models the
result of `xdg::BaseDirectories::new()`: `none` when the XDG environment is
unavailable, otherwise the pair of the system data directories
(`get_data_dirs`) and the user data home (`get_data_home`). `home` models
`dirs::home_dir()`. Paths that do not exist in `fs` are filtered out. -/
def icon_theme_base_paths (base_dirs : Option (List String × String))
    (home : Option String) (fs : List String) : List String :=
  let data_dirs :=
    match base_dirs with
    | some (dirs, data_home) =>
        (flat_map (fun p => [path_join p "icons", path_join p "pixmaps"]) dirs) ++
          [path_join data_home "icons", path_join data_home "pixmaps"]
    | none => []
  let data_dirs :=
    match home with
    | some h => data_dirs ++ [path_join h ".icons"]
    | none => data_dirs
  data_dirs.filter fun p => path_exists fs p

/-! ## `cache.rs` -/

/-- `CacheEntry` from `cache.rs`. -/
inductive CacheEntry where
  | NotFound
  | Found (path : String)
  | Unknown
deriving DecidableEq

/-- The cache contents: the nested `BTreeMap<String, BTreeMap<(String, u16,
u16), CacheEntry>>` flattened to an association list keyed by
`(theme, icon_name, size, scale)`. -/
abbrev Cache : Type := List ((String × String × Nat × Nat) × CacheEntry)

/-- `Cache::get` from `cache.rs`: the stored entry for the key, or `Unknown`
when the key has never been inserted. -/
def Cache.get (c : Cache) (theme : String) (size scale : Nat) (icon_name : String) :
    CacheEntry :=
  match List.find? (fun kv => decide (kv.1 = (theme, icon_name, size, scale))) c with
  | some kv => kv.2
  | none => CacheEntry.Unknown

/-- Association-list update used by `Cache.insert`: replace the entry of an
existing key in place, otherwise append the new key. -/
def insert_assoc : Cache → (String × String × Nat × Nat) → CacheEntry → Cache
  | [], k, e => [(k, e)]
  | kv :: rest, k, e => if kv.1 = k then (k, e) :: rest else kv :: insert_assoc rest k e

/-- `Cache::insert` from `cache.rs`: a `some` path is stored as `Found`, a
`none` as `NotFound` (an `Unknown` entry is never stored). -/
def Cache.insert (c : Cache) (theme : String) (size scale : Nat) (icon_name : String)
    (icon_path : Option String) : Cache :=
  let entry := match icon_path with
    | some p => CacheEntry.Found p
    | none => CacheEntry.NotFound
  insert_assoc c (theme, icon_name, size, scale) entry

/-! ## `lib.rs` — the lookup builder and the fallback chain -/

/-- `LookupBuilder` from `lib.rs`. -/
structure LookupBuilder where
  name : String
  cache : Bool
  force_svg : Bool
  scale : Nat
  size : Nat
  theme : String
deriving DecidableEq

/-- `lookup` from `lib.rs` (the defaults of `LookupBuilder::new`). -/
def lookup (name : String) : LookupBuilder :=
  { name := name, cache := false, force_svg := false, scale := 1, size := 24,
    theme := "hicolor" }

/-- `LookupBuilder::with_size`: stores the given size unchanged (the source
performs no validation). -/
def LookupBuilder.with_size (b : LookupBuilder) (size : Nat) : LookupBuilder :=
  { b with size := size }

/-- `LookupBuilder::with_scale`: stores the given scale unchanged (the source
performs no validation). -/
def LookupBuilder.with_scale (b : LookupBuilder) (scale : Nat) : LookupBuilder :=
  { b with scale := scale }

/-- `LookupBuilder::with_theme`. -/
def LookupBuilder.with_theme (b : LookupBuilder) (theme : String) : LookupBuilder :=
  { b with theme := theme }

/-- `LookupBuilder::with_cache`. -/
def LookupBuilder.with_cache (b : LookupBuilder) : LookupBuilder :=
  { b with cache := true }

/-- `LookupBuilder::force_svg` (named `set_force_svg` here because the field
projection already uses the source name). -/
def LookupBuilder.set_force_svg (b : LookupBuilder) : LookupBuilder :=
  { b with force_svg := true }

/-- The immutable surroundings of a lookup: the `THEMES` registry (keyed by
theme directory name), the `BASE_PATHS` list and the filesystem. -/
structure LookupEnv where
  themes : List (String × List Theme)
  base_paths : List String
  fs : List String

/-- `BTreeMap::get` on the `THEMES` registry (keys are unique). -/
def themes_get (themes : List (String × List Theme)) (name : String) :
    Option (List Theme) :=
  match List.find? (fun kv => kv.1 == name) themes with
  | some kv => some kv.2
  | none => none

/-- The first stage of the chain, also reused by the parent and hicolor
stages: `icon_themes.iter().find_map(|theme| theme.try_get_icon(..))`. -/
def find_icon_in_records (fs : List String) (records : List Theme) (name : String)
    (size scale : Nat) (force_svg : Bool) : Option String :=
  List.findSome? (fun t => t.try_get_icon fs name size scale force_svg) records

/-- The `parents` list of `LookupBuilder::lookup_in_theme`: every record's
`Inherits` names concatenated, then `Vec::dedup` (which removes only
consecutive duplicates). -/
def rust_dedup : List String → List String
  | [] => []
  | [a] => [a]
  | a :: b :: rest =>
    if a = b then rust_dedup (b :: rest) else a :: rust_dedup (b :: rest)

/-- See `rust_dedup`: the deduplicated parent names collected across the
theme's records. -/
def collect_parents (icon_themes : List Theme) : List String :=
  rust_dedup (flat_map (fun t => inherits t.index) icon_themes)

/-- Models `Path::file_name`/`file_stem` composition for the literal-path
fallback: the last nonempty, non-`.` component (none when it is `..`), cut
before its last dot unless the dot is leading. -/
def take_before_last_dot : List Char → Option (List Char)
  | [] => none
  | c :: cs =>
    match take_before_last_dot cs with
    | some rest => some (c :: rest)
    | none => if c = '.' then some [] else none

/-- Structural version of `str::split('/')`, accumulator form. -/
def split_slash_aux : List Char → List Char → List String
  | [], acc => [String.mk acc.reverse]
  | c :: cs, acc =>
    if c = '/' then String.mk acc.reverse :: split_slash_aux cs [] else split_slash_aux cs (c :: acc)

/-- Split a path on `/` characters. -/
def split_slash (s : String) : List String :=
  split_slash_aux s.data []

/-- Models Rust `Path::file_stem` for the path shapes reaching the
literal-path fallback. -/
def file_stem (s : String) : Option String :=
  let comps := (split_slash s).filter fun c => !(c == "") && !(c == ".")
  match comps.getLast? with
  | none => none
  | some n =>
    if n = ".." then none
    else
      match take_before_last_dot n.data with
      | none => some n
      | some [] => some n
      | some pre => some (String.mk pre)

/-- Models Rust `Path::parent` for the path shapes reaching the literal-path
fallback: `none` for the empty path and the root, the empty path for a bare
relative component, otherwise everything before the final component. -/
def parent_path (s : String) : Option String :=
  let stripped := (s.data.reverse.dropWhile fun c => c == '/').reverse
  if s = "" then none
  else if stripped.isEmpty then none
  else
    let rev := stripped.reverse
    let after_name := rev.dropWhile fun c => !(c == '/')
    let before_slash := after_name.dropWhile fun c => c == '/'
    if after_name.isEmpty then some ""
    else if before_slash.isEmpty then some "/"
    else some (String.mk before_slash.reverse)

/-- The six-stage fallback chain inside the `and_then` closure of
`LookupBuilder::lookup_in_theme`: in-theme search, direct-parent search,
`hicolor` search, base-path probe, `/usr/share/pixmaps` probe, literal-path
probe. -/
def search_chain (env : LookupEnv) (icon_themes : List Theme) (b : LookupBuilder) :
    Option String :=
  or_else (find_icon_in_records env.fs icon_themes b.name b.size b.scale b.force_svg)
    fun _ =>
  or_else ((collect_parents icon_themes).findSome? fun parent =>
      (themes_get env.themes parent).bind fun parent_records =>
        find_icon_in_records env.fs parent_records b.name b.size b.scale b.force_svg)
    fun _ =>
  or_else ((themes_get env.themes "hicolor").bind fun hicolor_records =>
      find_icon_in_records env.fs hicolor_records b.name b.size b.scale b.force_svg)
    fun _ =>
  or_else (env.base_paths.findSome? fun theme_base_dir =>
      try_build_icon_path env.fs b.name theme_base_dir b.force_svg)
    fun _ =>
  or_else (try_build_icon_path env.fs b.name "/usr/share/pixmaps" b.force_svg)
    fun _ =>
  match file_stem b.name, parent_path b.name with
  | some stem, some parent => try_build_icon_path env.fs stem parent b.force_svg
  | _, _ => none

/-- The part of `LookupBuilder::lookup_in_theme` after the cache probe: get
the requested theme's records (substituting the `hicolor` entry when the
requested name is absent), run the search chain and store the result when
caching is enabled; when neither entry exists the `and_then` closure never
runs and nothing is stored. -/
def lookup_in_theme_search (env : LookupEnv) (c : Cache) (b : LookupBuilder) :
    Option String × Cache :=
  match or_else (themes_get env.themes b.theme) (fun _ => themes_get env.themes "hicolor") with
  | none => (none, c)
  | some icon_themes =>
    let icon := search_chain env icon_themes b
    if b.cache then (icon, Cache.insert c b.theme b.size b.scale b.name icon)
    else (icon, c)

/-- `LookupBuilder::lookup_in_theme`: the cache is probed only when caching
is enabled, and only a `Found` entry returns early — on `NotFound` and
`Unknown` alike the full search runs. -/
def lookup_in_theme (env : LookupEnv) (c : Cache) (b : LookupBuilder) :
    Option String × Cache :=
  match (if b.cache then Cache.get c b.theme b.size b.scale b.name else CacheEntry.Unknown) with
  | CacheEntry.Found icon => (some icon, c)
  | CacheEntry.NotFound => lookup_in_theme_search env c b
  | CacheEntry.Unknown => lookup_in_theme_search env c b

/-- `LookupBuilder::find`. -/
def LookupBuilder.find (b : LookupBuilder) (env : LookupEnv) (c : Cache) :
    Option String × Cache :=
  lookup_in_theme env c b

/-! ## `lookup.rs` — the legacy builder -/

/-- `Lookup` from `lookup.rs` (the legacy builder kept in the repository). -/
structure Lookup where
  theme : String
  size : Nat
  scale : Nat
  icon : String
deriving DecidableEq

/-- `lookup` from `lookup.rs` (named apart from the `lib.rs` entry point). -/
def lookup_legacy (icon : String) : Lookup :=
  { theme := "hicolor", size := 24, scale := 1, icon := icon }

/-- `Lookup::size` from `lookup.rs` (named `set_size` because the field
projection already uses the source name): a zero size makes the source
panic, modelled as `none`. -/
def Lookup.set_size (l : Lookup) (size : Nat) : Option Lookup :=
  if size = 0 then none else some { l with size := size }

/-- `Lookup::scale` from `lookup.rs`: a zero scale makes the source panic,
modelled as `none`. -/
def Lookup.set_scale (l : Lookup) (scale : Nat) : Option Lookup :=
  if scale = 0 then none else some { l with scale := scale }

/-! ## Helper lemmas -/

/-- When some element of the list maps to a `some`, `findSome?` returns the
value of such an element. -/
theorem findSome_spec {α β : Type} (f : α → Option β) :
    ∀ l : List α, (∃ a, a ∈ l ∧ (f a).isSome = true) →
      ∃ a, a ∈ l ∧ List.findSome? f l = f a ∧ (f a).isSome = true := by
  intro l
  induction l with
  | nil => rintro ⟨a, ha, _⟩; cases ha
  | cons x xs ih =>
    rintro ⟨a, ha, hsome⟩
    cases hfx : f x with
    | some b =>
      exact ⟨x, List.mem_cons_self x xs, by simp [List.findSome?, hfx], by simp [hfx]⟩
    | none =>
      have haxs : a ∈ xs := by
        rcases List.mem_cons.mp ha with h | h
        · subst h; rw [hfx] at hsome; cases hsome
        · exact h
      obtain ⟨a', h1, h2, h3⟩ := ih ⟨a, haxs, hsome⟩
      exact ⟨a', List.mem_cons_of_mem x h1, by simp [List.findSome?, hfx, h2], h3⟩

/-- The head of `rust_dedup` on a nonempty list is the original head. -/
theorem rust_dedup_head (a : String) (l : List String) :
    (rust_dedup (a :: l)).head? = some a := by
  induction l generalizing a with
  | nil => rfl
  | cons b rest ih =>
    rw [rust_dedup]
    by_cases h : a = b
    · simp only [h, if_pos rfl]
      exact h ▸ ih b
    · simp [h]

/-- `rust_dedup` leaves no two equal elements adjacent. -/
theorem rust_dedup_chain :
    ∀ l : List String, List.Chain' (fun a b => a ≠ b) (rust_dedup l) := by
  intro l
  induction l with
  | nil => simp [rust_dedup]
  | cons a rest ih =>
    cases rest with
    | nil => simp [rust_dedup]
    | cons b rs =>
      rw [rust_dedup]
      by_cases h : a = b
      · simpa [h] using ih
      · rw [if_neg h, List.chain'_cons']
        refine ⟨?_, ih⟩
        intro y hy
        rw [rust_dedup_head b rs] at hy
        cases hy
        exact h

/-- Every element of `rust_dedup l` is an element of `l`. -/
theorem rust_dedup_mem :
    ∀ (l : List String) (x : String), x ∈ rust_dedup l → x ∈ l := by
  intro l
  induction l with
  | nil => intro x hx; exact hx
  | cons a rest ih =>
    cases rest with
    | nil => intro x hx; exact hx
    | cons b rs =>
      intro x hx
      rw [rust_dedup] at hx
      by_cases h : a = b
      · rw [if_pos h] at hx
        exact List.mem_cons_of_mem a (ih x hx)
      · rw [if_neg h] at hx
        rcases List.mem_cons.mp hx with h1 | h1
        · exact h1 ▸ List.mem_cons_self x (b :: rs)
        · exact List.mem_cons_of_mem a (ih x h1)

/-- Membership in a `flat_map` comes from membership in one of the images. -/
theorem flat_map_mem {α β : Type} (f : α → List β) (x : β) :
    ∀ l : List α, x ∈ flat_map f l → ∃ a, a ∈ l ∧ x ∈ f a := by
  intro l
  induction l with
  | nil => intro hx; cases hx
  | cons a rest ih =>
    intro hx
    rcases List.mem_append.mp hx with h | h
    · exact ⟨a, List.mem_cons_self a rest, h⟩
    · obtain ⟨a', h1, h2⟩ := ih h
      exact ⟨a', List.mem_cons_of_mem a h1, h2⟩

/-- `Theme::inherits` never returns the name `hicolor`: the split fragments
equal to it are filtered out. -/
theorem inherits_no_hicolor (file : List IniItem) : "hicolor" ∉ inherits file := by
  unfold inherits
  cases h : (icon_theme_section file).find? (fun kv => kv.1 == "Inherits") with
  | none => simp
  | some kv =>
    intro hmem
    have := (List.mem_filter.mp hmem).2
    simp at this

/-! ## Claim C1 — exact-size before closest-size -/

/-- Two-record theme used for C1: the first record has only a non-exact
(Fixed 32) directory that contains the icon, the second record has an exact
(Fixed 24) directory that also contains it. -/
def fs1 : List String := ["t1/d1/icon.png", "t2/d2/icon.png"]

/-- First base-path record of the C1 theme. -/
def rec1 : Theme :=
  ⟨"t1", [IniItem.Section "d1", IniItem.Property "Size" (some "32"),
          IniItem.Property "Type" (some "Fixed"), IniItem.SectionEnd]⟩

/-- Second base-path record of the C1 theme. -/
def rec2 : Theme :=
  ⟨"t2", [IniItem.Section "d2", IniItem.Property "Size" (some "24"),
          IniItem.Property "Type" (some "Fixed"), IniItem.SectionEnd]⟩

/-- C1 counterexample: for a theme split across two base-path records, the
in-theme lookup at size 24 returns the icon from the first record's
closest-distance directory (`t1/d1`, Fixed 32, not an exact match) although
the second record's directory `t2/d2` is an exact match for (24, 1) and
contains the icon — so a closest-distance candidate is consulted before every
exact candidate of the theme has been probed, contrary to the claim. -/
theorem c1_counterexample :
    find_icon_in_records fs1 [rec1, rec2] "icon" 24 1 false = some "t1/d1/icon.png"
    ∧ get_all_directories rec2.index =
    [⟨"d2", 24, 1, DirectoryType.Fixed, 24, 24, 2⟩]
    ∧ Directory.match_size ⟨"d2", 24, 1, DirectoryType.Fixed, 24, 24, 2⟩ 24 1 = true
    ∧ try_build_icon_path fs1 "icon" (path_join rec2.path "d2") false = some "t2/d2/icon.png"
    ∧ (get_all_directories rec1.index).all (fun d => !(d.match_size 24 1)) = true := by
  decide

/-- C1 (amended): exact-before-closest holds within each base-path record:
whenever some directory of a record is an exact match for the requested
(size, scale) and contains the icon, that record's `try_get_icon` returns a
path built from an exact-matching directory of the record, and its
closest-distance phase is never consulted; across records, each earlier
record's exact and closest candidates are both probed before any candidate
of a later record. -/
theorem c1_exact_before_closest_per_record (fs : List String) (t : Theme) (name : String)
    (size scale : Nat) (svg : Bool)
    (h : ∃ d, d ∈ get_all_directories t.index ∧ d.match_size size scale = true ∧
        (try_build_icon_path fs name (path_join t.path d.name) svg).isSome = true) :
    ∃ d, d ∈ get_all_directories t.index ∧ d.match_size size scale = true ∧
      t.try_get_icon fs name size scale svg =
        try_build_icon_path fs name (path_join t.path d.name) svg ∧
      (try_build_icon_path fs name (path_join t.path d.name) svg).isSome = true := by
  obtain ⟨d, hd, hm, hs⟩ := h
  have hmem : path_join t.path d.name ∈ t.match_size size scale :=
    List.mem_map.mpr ⟨d, List.mem_filter.mpr ⟨hd, hm⟩, rfl⟩
  obtain ⟨p, hp, heq, hps⟩ :=
    findSome_spec (fun p => try_build_icon_path fs name p svg) (t.match_size size scale)
      ⟨_, hmem, hs⟩
  obtain ⟨d', hd', hpd⟩ := List.mem_map.mp hp
  have hex : t.try_get_icon_exact_size fs name size scale svg =
      try_build_icon_path fs name p svg := heq
  refine ⟨d', (List.mem_filter.mp hd').1, (List.mem_filter.mp hd').2, ?_, ?_⟩
  · rw [hpd]
    unfold Theme.try_get_icon
    rw [hex]
    cases hv : try_build_icon_path fs name p svg with
    | some v => simp [or_else]
    | none => rw [hv] at hps; cases hps
  · rw [hpd]; exact hps

/-- C1 witness: the amended theorem applied to the exact-matching record of
the counterexample theme. -/
theorem c1_witness :
    ∃ d, d ∈ get_all_directories rec2.index ∧ d.match_size 24 1 = true ∧
      Theme.try_get_icon rec2 fs1 "icon" 24 1 false =
        try_build_icon_path fs1 "icon" (path_join rec2.path d.name) false ∧
      (try_build_icon_path fs1 "icon" (path_join rec2.path d.name) false).isSome = true :=
  c1_exact_before_closest_per_record fs1 rec2 "icon" 24 1 false
    ⟨⟨"d2", 24, 1, DirectoryType.Fixed, 24, 24, 2⟩, by decide, by decide, by decide⟩

/-! ## Claim C2 — NotFound cache entries do not short-circuit -/

/-- Registry for C2: a single `hicolor` record whose directory contains the
requested icon. -/
def rec_h : Theme :=
  ⟨"H", [IniItem.Section "d", IniItem.Property "Size" (some "24"), IniItem.SectionEnd]⟩

/-- Environment for C2. -/
def env2 : LookupEnv := ⟨[("hicolor", [rec_h])], [], ["H/d/moo.png"]⟩

/-- Cache for C2, already holding a `NotFound` entry for the requested key. -/
def cache2 : Cache := [(("hicolor", "moo", 24, 1), CacheEntry.NotFound)]

/-- C2: with caching enabled and the cache holding `NotFound` for the
requested (theme, name, size, scale) key, `find` does not return absence
immediately: the code only returns early on a `Found` entry, so the full
search still runs — here it finds the icon on disk and replaces the
`NotFound` entry with `Found`, while the claim requires absence with no
search at all. -/
theorem c2_notfound_cache_still_searches :
    Cache.get cache2 "hicolor" 24 1 "moo" = CacheEntry.NotFound
    ∧ ((lookup "moo").with_cache).find env2 cache2 =
      (some "H/d/moo.png", [(("hicolor", "moo", 24, 1), CacheEntry.Found "H/d/moo.png")]) := by
  decide

/-! ## Claim C3 — base-path priority order -/

/-- Filesystem for C3: every candidate base path exists. -/
def fs3 : List String :=
  ["/usr/share/icons", "/usr/share/pixmaps", "/home/u/.local/share/icons",
   "/home/u/.local/share/pixmaps", "/home/u/.icons"]

/-- C3: with system data dirs `["/usr/share"]`, user data home
`/home/u/.local/share` and home `/home/u` (all subpaths existing), the
computed base-path list puts the system paths first and the user's legacy
`~/.icons` last — the reverse of the order required by the claim (and by the
function's own doc comment), which demands `~/.icons` first, then the user
data paths, then the system data paths. -/
theorem c3_base_paths_order :
    icon_theme_base_paths (some (["/usr/share"], "/home/u/.local/share")) (some "/home/u") fs3
      = ["/usr/share/icons", "/usr/share/pixmaps", "/home/u/.local/share/icons",
         "/home/u/.local/share/pixmaps", "/home/u/.icons"] := by
  decide

/-! ## Claim C4 — parent-theme search is not transitive -/

/-- Theme A for C4, declaring parent B. -/
def rec_a : Theme :=
  ⟨"A", [IniItem.Section "Icon Theme", IniItem.Property "Inherits" (some "B"),
         IniItem.SectionEnd]⟩

/-- Theme B for C4, declaring parent C. -/
def rec_b : Theme :=
  ⟨"B", [IniItem.Section "Icon Theme", IniItem.Property "Inherits" (some "C"),
         IniItem.SectionEnd]⟩

/-- Theme C for C4, containing the icon at the requested size. -/
def rec_c : Theme :=
  ⟨"C", [IniItem.Section "d", IniItem.Property "Size" (some "24"), IniItem.SectionEnd]⟩

/-- Environment for C4. -/
def env4 : LookupEnv := ⟨[("A", [rec_a]), ("B", [rec_b]), ("C", [rec_c])], [], ["C/d/ico.png"]⟩

/-- C4: theme A inherits B, B inherits C, and the icon exists (at the
requested size) only in C; a lookup under theme A returns absence, because
the parent stage searches only A's directly declared parents and never
recurses into B's own parents — while the claim requires the transitive
ancestor walk to find the icon in C. -/
theorem c4_no_grandparent_search :
    inherits rec_a.index = ["B"]
    ∧ inherits rec_b.index = ["C"]
    ∧ find_icon_in_records env4.fs [rec_c] "ico" 24 1 false = some "C/d/ico.png"
    ∧ (((lookup "ico").with_theme "A").find env4 []).1 = none := by
  decide

/-! ## Claim C5 — a bad Size drops the rest of the file -/

/-- Index events for C5: section `A` has an unparseable `Size`, the later
section `B` has a valid one. -/
def bad_size_items : List IniItem :=
  [IniItem.Section "A", IniItem.Property "Size" (some "abc"), IniItem.SectionEnd,
   IniItem.Section "B", IniItem.Property "Size" (some "16"), IniItem.SectionEnd]

/-- C5: when a directory subsection has no parseable `Size`, parsing does not
continue past it: the iterator terminates, so the later subsection `B` —
which parses fine on its own — yields no directory entry at all, while the
claim requires only the offending entry to be dropped. -/
theorem c5_parse_stops_at_bad_size :
    parse_i16 "abc" = none
    ∧ parse_i16 "16" = some 16
    ∧ get_all_directories bad_size_items = []
    ∧ get_all_directories
        [IniItem.Section "B", IniItem.Property "Size" (some "16"), IniItem.SectionEnd]
      = [⟨"B", 16, 1, DirectoryType.Threshold, 16, 16, 2⟩] := by
  decide

/-! ## Claim C6 — the Scalable distance metric -/

/-- Scalable directory used for C6: nominal size 12, scale 1, bounds
[8, 16]. -/
def scalable_dir : Directory := ⟨"s", 12, 1, DirectoryType.Scalable, 16, 8, 2⟩

/-- C6: the code's Scalable distance disagrees with the claimed metric. For a
requested size 10 (inside the scaled [8, 16] bounds) the claim requires
distance 0, but the code returns `10 − 16 = −6` (ranked as 6 after the
absolute value); for a requested size 20 (overshoot) the claim requires
`20 − 16 = 4`, but the code returns 0. Only the undershoot arm (size 5 →
`8 − 5 = 3`) agrees with the claim. -/
theorem c6_scalable_distance :
    scalable_dir.directory_size_distance 10 1 = -6
    ∧ (scalable_dir.directory_size_distance 10 1).natAbs = 6
    ∧ scalable_dir.directory_size_distance 20 1 = 0
    ∧ scalable_dir.directory_size_distance 5 1 = 3 := by
  decide

/-! ## Claim C7 — parent-name deduplication -/

/-- Two base-path records of one theme for C7: the first declares parents
`A,B`, the second declares `A` again. -/
def recs7 : List Theme :=
  [⟨"p1", [IniItem.Section "Icon Theme", IniItem.Property "Inherits" (some "A,B"),
           IniItem.SectionEnd]⟩,
   ⟨"p2", [IniItem.Section "Icon Theme", IniItem.Property "Inherits" (some "A"),
           IniItem.SectionEnd]⟩]

/-- C7 counterexample: the collected parent list of a theme whose records
declare `A,B` and `A` is `["A", "B", "A"]` — `Vec::dedup` removes only
consecutive duplicates, so the same parent name does appear twice, contrary
to the claim. -/
theorem c7_counterexample :
    collect_parents recs7 = ["A", "B", "A"] ∧ ¬ (collect_parents recs7).Nodup := by
  decide

/-- C7 (amended): the collected parent list never holds the same name in two
consecutive positions (`Vec::dedup` collapses runs of equal names, though
non-adjacent duplicates survive), and it never contains the exact name
`hicolor`. -/
theorem c7_parents_dedup_adjacent (recs : List Theme) :
    List.Chain' (fun a b => a ≠ b) (collect_parents recs)
    ∧ "hicolor" ∉ collect_parents recs := by
  refine ⟨rust_dedup_chain _, ?_⟩
  intro hmem
  obtain ⟨t, _, hin⟩ := flat_map_mem _ _ _ (rust_dedup_mem _ _ hmem)
  exact inherits_no_hicolor t.index hin

/-! ## Claim C8 — zero size/scale are not rejected -/

/-- Registry for C8: a `hicolor` record whose Threshold directory (nominal
size 1, threshold 2) matches a requested size of 0 exactly. -/
def rec8 : Theme :=
  ⟨"H", [IniItem.Section "d", IniItem.Property "Size" (some "1"), IniItem.SectionEnd]⟩

/-- Environment for C8. -/
def env8 : LookupEnv := ⟨[("hicolor", [rec8])], [], ["H/d/myicon.png"]⟩

/-- C8 counterexample: `with_size(0)` is accepted and produces a usable
request with size 0, and that zero-size request reaches the search stages as
an ordinary runtime search — here it even finds an icon (a Threshold
directory of nominal size 1 matches size 0). The claim's eager
construction-time rejection does not happen in the active builder. -/
theorem c8_counterexample :
    ((lookup "myicon").with_size 0).size = 0
    ∧ (((lookup "myicon").with_size 0).find env8 []).1 = some "H/d/myicon.png" := by
  decide

/-- C8 (amended): the active builder performs no validation — `with_size` and
`with_scale` store any value unchanged, including zero, and the search runs
with it; only the legacy `Lookup` builder of `lookup.rs` rejects a zero size
or scale at construction time (it panics, modelled as `none`). -/
theorem c8_no_validation (b : LookupBuilder) (l : Lookup) (n : Nat) :
    (b.with_size n).size = n ∧ (b.with_scale n).scale = n
    ∧ (l.set_size n = none ↔ n = 0) ∧ (l.set_scale n = none ↔ n = 0) := by
  refine ⟨rfl, rfl, ?_, ?_⟩ <;>
  · by_cases h : n = 0 <;> simp [Lookup.set_size, Lookup.set_scale, h]

/-! ## Claim C9 — filename probe order -/

/-- C9: the file-existence probe returns the first existing candidate,
testing `name.png`, `name.svg`, `name.xmp` in that order by default and
`name.svg` first with the force-vector flag; consequently when both the PNG
and the SVG exist, the default probe returns the PNG path and the
force-vector probe the SVG path. -/
theorem c9_filename_priority (fs : List String) (name path : String) :
    (try_build_icon_path fs name path false =
      (if path_exists fs (path_join path (name ++ ".png")) then
        some (path_join path (name ++ ".png"))
       else if path_exists fs (path_join path (name ++ ".svg")) then
        some (path_join path (name ++ ".svg"))
       else if path_exists fs (path_join path (name ++ ".xmp")) then
        some (path_join path (name ++ ".xmp"))
       else none))
    ∧ (try_build_icon_path fs name path true =
      (if path_exists fs (path_join path (name ++ ".svg")) then
        some (path_join path (name ++ ".svg"))
       else if path_exists fs (path_join path (name ++ ".png")) then
        some (path_join path (name ++ ".png"))
       else if path_exists fs (path_join path (name ++ ".xmp")) then
        some (path_join path (name ++ ".xmp"))
       else none))
    ∧ (path_exists fs (path_join path (name ++ ".png")) = true →
       path_exists fs (path_join path (name ++ ".svg")) = true →
       try_build_icon_path fs name path false = some (path_join path (name ++ ".png")) ∧
       try_build_icon_path fs name path true = some (path_join path (name ++ ".svg"))) := by
  refine ⟨?_, ?_, ?_⟩
  · by_cases h1 : path_exists fs (path_join path (name ++ ".png")) <;>
    by_cases h2 : path_exists fs (path_join path (name ++ ".svg")) <;>
    by_cases h3 : path_exists fs (path_join path (name ++ ".xmp")) <;>
    simp [try_build_icon_path, try_build_png, try_build_svg, try_build_xmp, or_else,
      h1, h2, h3]
  · by_cases h1 : path_exists fs (path_join path (name ++ ".png")) <;>
    by_cases h2 : path_exists fs (path_join path (name ++ ".svg")) <;>
    by_cases h3 : path_exists fs (path_join path (name ++ ".xmp")) <;>
    simp [try_build_icon_path, try_build_png, try_build_svg, try_build_xmp, or_else,
      h1, h2, h3]
  · intro h1 h2
    constructor <;>
    simp [try_build_icon_path, try_build_png, try_build_svg, or_else, h1, h2]

/-- Filesystem for the C9 witness: both the PNG and the SVG exist. -/
def fs9 : List String := ["p/n.png", "p/n.svg"]

/-- C9 witness: the probe order theorem applied where both `n.png` and
`n.svg` exist under `p`. -/
theorem c9_witness :
    path_exists fs9 (path_join "p" ("n" ++ ".png")) = true ∧
    (try_build_icon_path fs9 "n" "p" false = some (path_join "p" ("n" ++ ".png")) ∧
     try_build_icon_path fs9 "n" "p" true = some (path_join "p" ("n" ++ ".svg"))) :=
  ⟨by decide, (c9_filename_priority fs9 "n" "p").2.2 (by decide) (by decide)⟩

/-! ## Claim C10 — missing registry entries -/

/-- C10: when the registry has no entry for the requested theme name (and the
cache probe does not hit a `Found` entry), the lookup substitutes the
registry's `hicolor` entry and runs the whole search chain against it,
storing the result under the original key iff caching is enabled; and when
the registry contains neither the requested theme nor `hicolor`, it returns
absence with the cache left exactly unchanged — no negative entry is
written even with caching enabled. -/
theorem c10_registry_fallback (env : LookupEnv) (c : Cache) (b : LookupBuilder)
    (hcache : b.cache = true →
      ∀ p, Cache.get c b.theme b.size b.scale b.name ≠ CacheEntry.Found p)
    (hmiss : themes_get env.themes b.theme = none) :
    (∀ recs, themes_get env.themes "hicolor" = some recs →
        lookup_in_theme env c b = (search_chain env recs b,
          if b.cache then Cache.insert c b.theme b.size b.scale b.name (search_chain env recs b)
          else c))
    ∧ (themes_get env.themes "hicolor" = none → lookup_in_theme env c b = (none, c)) := by
  have hsearch : lookup_in_theme env c b = lookup_in_theme_search env c b := by
    unfold lookup_in_theme
    cases hb : b.cache with
    | false => simp
    | true =>
      cases hget : Cache.get c b.theme b.size b.scale b.name with
      | NotFound => simp [hget]
      | Found p => exact absurd hget (hcache hb p)
      | Unknown => simp [hget]
  constructor
  · intro recs hrecs
    rw [hsearch]
    unfold lookup_in_theme_search
    rw [hmiss]
    cases hb : b.cache <;> simp [or_else, hrecs, hb]
  · intro hnone
    rw [hsearch]
    unfold lookup_in_theme_search
    rw [hmiss]
    simp [or_else, hnone]

/-- Environment for the C10 witness: an empty registry. -/
def env10 : LookupEnv := ⟨[], [], []⟩

/-- C10 witness: with an empty registry and caching enabled, a lookup under a
theme name absent from the registry returns absence and writes nothing. -/
theorem c10_witness :
    lookup_in_theme env10 [] (((lookup "missing").with_theme "Foo").with_cache) = (none, []) :=
  (c10_registry_fallback env10 [] (((lookup "missing").with_theme "Foo").with_cache)
    (fun _ p h => by simp [Cache.get] at h) rfl).2 rfl
